import Mathlib

/-!
Verification of the street-coverage-mapper core against its specification.

The development shallowly embeds the coverage analysis engine of the
repository: the trajectory classifier and batched coverage matcher of
src/data/walk_processor.py (analyze_walks, parse_tcx_file), the transit
heuristic of src/process_data.py (is_probable_transit), the parameter
tables of src/utils/config.py, and the city parameter estimator of
src/utils/city_analyzer.py (CityAnalyzer).

Numeric quantities (lengths in meters, durations in seconds, speeds in
m/s) are modelled as rationals; planar geometry is abstracted by opaque
geometry identifiers together with an intersection oracle giving, for a
street geometry and a buffered walk geometry, the decomposition of their
intersection into linear pieces with their lengths, exactly the data the
Python code consumes from shapely.
-/

namespace StreetCoverage

/-- City processing parameters, mirroring the parameter dictionaries of
src/utils/config.py and src/utils/city_analyzer.py: buffer_distance (m),
max/min walking speed (m/s), max_sinuosity, max_direct_distance (m) and an
optional bounding box [min_lon, min_lat, max_lon, max_lat]. -/
structure CityParams where
  buffer_distance : ℚ
  max_walking_speed : ℚ
  min_walking_speed : ℚ
  max_sinuosity : ℚ
  max_direct_distance : ℚ
  bbox : Option (ℚ × ℚ × ℚ × ℚ)
deriving Repr, DecidableEq

/-- Parameters of the new_york entry of LEGACY_CITY_PARAMS (config.py). -/
def newYorkParams : CityParams :=
  { buffer_distance := 5
    max_walking_speed := 3
    min_walking_speed := 1/10
    max_sinuosity := 4
    max_direct_distance := 15000
    bbox := some (-743/10, 81/2, -737/10, 409/10) }

/-- Parameters of the london entry of LEGACY_CITY_PARAMS (config.py); the
boroughs list of that entry is only consumed by the street loader and is
not part of the numeric parameter set. -/
def londonParams : CityParams :=
  { buffer_distance := 8
    max_walking_speed := 3
    min_walking_speed := 1/10
    max_sinuosity := 4
    max_direct_distance := 15000
    bbox := some (-3/5, 511/10, 2/5, 259/5) }

/-- The LEGACY_CITY_PARAMS table of src/utils/config.py, an association
list keyed by city name. -/
def LEGACY_CITY_PARAMS : List (String × CityParams) :=
  [("new_york", newYorkParams), ("london", londonParams)]

/-- CITY_PARAMS of config.py is an alias of LEGACY_CITY_PARAMS
(the backwards-compatibility assignment at the end of config.py). -/
def CITY_PARAMS : List (String × CityParams) := LEGACY_CITY_PARAMS

/-- Default parameters: CityAnalyzer._get_default_parameters, identical to
get_default_parameters of config.py. -/
def getDefaultParameters : CityParams :=
  { buffer_distance := 8
    max_walking_speed := 3
    min_walking_speed := 1/10
    max_sinuosity := 4
    max_direct_distance := 15000
    bbox := none }

/-! ## Trajectory classifier (analyze_walks, walk_processor.py lines 106 to 134) -/

/-- One candidate walk as seen by analyze_walks: an opaque geometry
identifier (standing for the shapely LineString) plus the metric data the
classifier derives from it — projected length in meters, duration in
seconds, and the straight start-to-end distance used for sinuosity (which
the code computes in the original, unprojected coordinates). -/
structure Walk where
  gid : ℕ
  distance : ℚ
  duration : ℚ
  straight_distance : ℚ
deriving Repr, DecidableEq

/-- Average speed in m/s: distance / duration if duration > 0 else 0
(walk_processor.py line 118). -/
def avgSpeed (w : Walk) : ℚ :=
  if 0 < w.duration then w.distance / w.duration else 0

/-- Sinuosity: distance / straight_distance if straight_distance > 0
else 1 (walk_processor.py line 124). -/
def sinuosity (w : Walk) : ℚ :=
  if 0 < w.straight_distance then w.distance / w.straight_distance else 1

/-- The valid-walk predicate of analyze_walks (lines 130 to 133):
avg_speed at most max_walking_speed times 1.2, avg_speed at least
min_walking_speed, sinuosity at least 1.05 or distance at most 2000 m,
and distance at most 5000 m. -/
def isValidWalk (p : CityParams) (w : Walk) : Bool :=
  decide (avgSpeed w ≤ p.max_walking_speed * (12/10)) &&
  decide (p.min_walking_speed ≤ avgSpeed w) &&
  (decide ((21/20) ≤ sinuosity w) || decide (w.distance ≤ 2000)) &&
  decide (w.distance ≤ 5000)

/-! ## Coverage matcher (analyze_walks, walk_processor.py lines 139 to 229) -/

/-- One street segment: opaque geometry identifier plus projected length
in meters. -/
structure Street where
  gid : ℕ
  length : ℚ
deriving Repr, DecidableEq

/-- Result of shapely street.geometry.intersection(buffered_walk.geometry),
abstracted to the data the matcher reads from it: emptiness, and for a
single-part geometry its length, for a multi-part geometry the lengths of
its parts (the .geoms attribute). A point intersection is a single part of
length 0. -/
inductive IntersectionResult where
  | empty : IntersectionResult
  | single : ℚ → IntersectionResult
  | multi : List ℚ → IntersectionResult
deriving Repr, DecidableEq

/-- Intersection oracle: for a buffer radius, a street geometry id and a
walk geometry id, the intersection of the street with the walk buffered by
that radius. This is the geometric environment the matcher runs in. -/
def InterOracle : Type := ℚ → ℕ → ℕ → IntersectionResult

/-- Piece filter of analyze_walks (lines 191 to 207): from one
intersection result, the list of retained piece lengths. Multi-part:
keep parts with length > 0 and length at most 500 m. Single part: keep it
if its length is > 0 and at most 500 m. Empty: nothing. -/
def retainedPieces : IntersectionResult → List ℚ
  | .empty => []
  | .single l => if 0 < l ∧ l ≤ 500 then [l] else []
  | .multi ls => ls.filter (fun l => decide (0 < l) && decide (l ≤ 500))

/-- Exact intersection test relevant_walks.intersects(street.geometry)
(line 182): true iff the intersection is nonempty. -/
def intersectsG (inter : InterOracle) (b : ℚ) (s : Street) (w : Walk) : Bool :=
  decide (inter b s.gid w.gid ≠ .empty)

/-- Retained piece lengths of one street against a list of intersecting
walks, in walk order: the covered_segments list of analyze_walks. -/
def coveredPieces (inter : InterOracle) (b : ℚ) (s : Street) (iw : List Walk) : List ℚ :=
  (iw.map (fun w => retainedPieces (inter b s.gid w.gid))).flatten

/-- Per-street coverage record as appended to covered_streets: the
coverage percentage and the covered flag. -/
structure CoverageResult where
  coverage_percent : ℚ
  covered : Bool
deriving Repr, DecidableEq

/-- Tail of the per-street computation (lines 209 to 217): given the
street and its retained piece lengths, produce the street record if any
piece was retained, the street has positive length and the resulting
percentage is positive; the percentage is capped at 100. -/
def streetRecord (s : Street) (segs : List ℚ) : Option (Street × CoverageResult) :=
  if segs.isEmpty then none
  else if 0 < s.length then
    if 0 < segs.sum / s.length * 100 then
      some (s, ⟨min (segs.sum / s.length * 100) 100, true⟩)
    else none
  else none

/-- Per-street step of analyze_walks (lines 180 to 217): filter the
candidate walks by exact intersection with the street; if none intersect,
the street produces no record, otherwise apply the piece filter and the
coverage computation. -/
def processStreet (inter : InterOracle) (b : ℚ) (cands : List Walk) (s : Street) :
    Option (Street × CoverageResult) :=
  if (cands.filter (intersectsG inter b s)).isEmpty then none
  else streetRecord s (coveredPieces inter b s (cands.filter (intersectsG inter b s)))

/-- Unbatched coverage matcher: every street against the full walk list,
keeping only the streets that produce a record (the code returns only
covered streets). -/
def matchStreets (inter : InterOracle) (b : ℚ) (walks : List Walk) (streets : List Street) :
    List (Street × CoverageResult) :=
  streets.filterMap (processStreet inter b walks)

/-- Covered length of a street under a walk set: the sum of the retained
piece lengths over the walks that exactly intersect the street; this is
the total_covered_length variable of analyze_walks. -/
def coveredLength (inter : InterOracle) (b : ℚ) (walks : List Walk) (s : Street) : ℚ :=
  (coveredPieces inter b s (walks.filter (intersectsG inter b s))).sum

/-! ### Batched processing (lines 157 to 217)

The code walks the street list in batches of 5000, queries a spatial index
of buffered walks once per batch with the bounds of its streets, and runs
the exact per-street computation only against the returned candidates. The
spatial index is abstracted as a function from a street geometry id to the
list of candidate walk geometry ids returned for that street's bounds;
batching a list is modelled by a fuel-driven chunking function. -/

/-- Splitting a list into chunks of size n, fuel-driven so that the
definition is total; chunksOf supplies fuel equal to the list length,
enough whenever n > 0. -/
def chunksAux (n : ℕ) : ℕ → List α → List (List α)
  | 0, _ => []
  | _, [] => []
  | fuel+1, x :: xs => (x :: xs).take n :: chunksAux n fuel ((x :: xs).drop n)

/-- List split into consecutive chunks of size n (the final chunk may be
shorter), as produced by range(0, len(streets), batch_size). -/
def chunksOf (n : ℕ) (xs : List α) : List (List α) :=
  chunksAux n xs.length xs

/-- Selection of the candidate walks returned by a spatial-index query:
the sublist of walks, in original order, whose geometry ids are among the
returned candidate ids (buffered_walks.iloc over the match set). -/
def selectWalks (walks : List Walk) (cand : List ℕ) : List Walk :=
  walks.filter (fun w => decide (w.gid ∈ cand))

/-- Batched coverage matcher, following the batch loop of analyze_walks:
chunk the streets, collect the candidate walk ids of the whole batch,
skip the batch if no candidates came back, otherwise process each street
of the batch against the selected candidate walks. -/
def matchStreetsBatched (inter : InterOracle) (b : ℚ) (sidx : ℕ → List ℕ)
    (walks : List Walk) (bs : ℕ) (streets : List Street) :
    List (Street × CoverageResult) :=
  (chunksOf bs streets).flatMap (fun batch =>
    if (batch.flatMap (fun s => sidx s.gid)).isEmpty then []
    else batch.filterMap (processStreet inter b
      (selectWalks walks (batch.flatMap (fun s => sidx s.gid)))))

/-- Soundness of the spatial index: every walk whose buffered geometry
exactly intersects a street is among the candidates returned for that
street's bounds. This is the defining property of an R-tree broad phase:
the bounding box of the walk intersects the bounding box of the street
whenever the geometries intersect. -/
abbrev sidxSound (inter : InterOracle) (b : ℚ) (sidx : ℕ → List ℕ)
    (walks : List Walk) (streets : List Street) : Prop :=
  ∀ s ∈ streets, ∀ w ∈ walks, intersectsG inter b s w = true → w.gid ∈ sidx s.gid

/-! ### The full analyze_walks pipeline -/

/-- The batch size hardcoded at line 158 of walk_processor.py. -/
def batchSize : ℕ := 5000

/-- The city name hardcoded at line 102 of walk_processor.py. -/
def analyzeWalksCity : String := "new_york"

/-- Full analyze_walks (walk_processor.py lines 98 to 229): look up the
hardcoded city in CITY_PARAMS (none models the KeyError a missing key
would raise), classify the walks with those parameters, and run the
batched matcher with that buffer distance; returns the covered streets
and the valid walks. -/
def analyze_walks (inter : InterOracle) (sidx : ℕ → List ℕ)
    (walks : List Walk) (streets : List Street) :
    Option (List (Street × CoverageResult) × List Walk) :=
  match CITY_PARAMS.lookup analyzeWalksCity with
  | none => none
  | some params =>
    let valid := walks.filter (isValidWalk params)
    some (matchStreetsBatched inter params.buffer_distance sidx valid batchSize streets,
          valid)

/-- Number of positional parameters of def analyze_walks(walks_gdf,
streets_gdf) in walk_processor.py line 98: exactly two, no defaults, no
variadic parameter. -/
def analyzeWalksParamCount : ℕ := 2

/-- Number of positional arguments at the call sites of analyze_walks:
process.py line 153 and run_coverage_analysis.py line 36 both call
analyze_walks(walks_gdf, streets_gdf, city). -/
def analyzeWalksCallArgCount : ℕ := 3

/-- Python call compatibility for a function with only plain positional
parameters and no defaults: the call binds iff the argument count equals
the parameter count. -/
def pythonCallBinds (paramCount argCount : ℕ) : Bool :=
  argCount == paramCount

/-! ## Transit heuristic of src/process_data.py (is_probable_transit) -/

/-- Input of is_probable_transit: per-walk metrics in the units that
function uses — distance and straight start-to-end distance in kilometers,
duration in seconds, point count, and the street-following ratio computed
by its secondary check. -/
structure WalkData where
  distance_km : ℚ
  duration : ℚ
  straight_km : ℚ
  npoints : ℕ
  street_following : ℚ
deriving Repr, DecidableEq

/-- Average speed in km/h: distance / (duration/3600) if duration > 0
else 0 (process_data.py line 188). -/
def avgSpeedKmh (w : WalkData) : ℚ :=
  if 0 < w.duration then w.distance_km / (w.duration / 3600) else 0

/-- Sinuosity as computed by is_probable_transit (line 194). -/
def sinuosityKm (w : WalkData) : ℚ :=
  if 0 < w.straight_km then w.distance_km / w.straight_km else 1

/-- Point density in points per km (line 197). -/
def pointDensity (w : WalkData) : ℚ :=
  if 0 < w.distance_km then (w.npoints : ℚ) / w.distance_km else 0

/-- is_probable_transit (process_data.py lines 173 to 250), with
MAX_WALKING_SPEED 7 km/h, MIN_POINT_DENSITY 50, MIN_SINUOSITY 1.05 and
MIN_STREET_FOLLOWING 0.3: the basic indicators, then for not-yet-transit
straight long routes the street-following check. -/
def is_probable_transit (w : WalkData) : Bool :=
  let basic :=
    decide (7 < avgSpeedKmh w) ||
    (decide (sinuosityKm w < 21/20) && decide (1/2 < w.distance_km) &&
     decide (pointDensity w < 50))
  if !basic && decide (sinuosityKm w < 21/20) && decide (1/2 < w.distance_km) then
    decide (w.street_following < 3/10)
  else basic

/-! ## TCX parsing (parse_tcx_file, walk_processor.py lines 14 to 65) -/

/-- One raw Trackpoint element: an optional Time child (its parsed
timestamp) and an optional Position child holding optional latitude and
longitude children. -/
structure RawTrackpoint where
  time : Option ℚ
  position : Option (Option ℚ × Option ℚ)
deriving Repr, DecidableEq

/-- One raw TCX file, at the granularity parse_tcx_file reads it: the
optional Activity element with its optional Sport attribute, and the list
of Trackpoint elements. -/
structure TCXFile where
  activity : Option (Option String)
  trackpoints : List RawTrackpoint
deriving Repr, DecidableEq

/-- The valid track points of a file: those whose Time, Position,
LatitudeDegrees and LongitudeDegrees are all present (lines 34 to 47),
each yielding (time, lat, lon). -/
def validTrackpoints (tps : List RawTrackpoint) : List (ℚ × ℚ × ℚ) :=
  tps.filterMap (fun tp =>
    match tp.time, tp.position with
    | some t, some (some la, some lo) => some (t, la, lo)
    | _, _ => none)

/-- A parsed Track value: the coordinate polyline as (lon, lat) pairs and
the first and last timestamps. -/
structure Track where
  coords : List (ℚ × ℚ)
  start_time : ℚ
  end_time : ℚ
deriving Repr, DecidableEq

/-- parse_tcx_file (walk_processor.py): no Activity element or a Sport
attribute other than Walking yields no value; fewer than 2 valid track
points yields no value; otherwise the Track with the (lon, lat) polyline,
the first time and the last time. -/
def parse_tcx_file (f : TCXFile) : Option Track :=
  match f.activity with
  | none => none
  | some sport =>
    if sport = some "Walking" then
      match validTrackpoints f.trackpoints with
      | [] => none
      | [_] => none
      | p :: q :: rest =>
        some { coords := ((p :: q :: rest).map (fun x => (x.2.2, x.2.1)))
               start_time := p.1
               end_time := ((q :: rest).getLast (List.cons_ne_nil q rest)).1 }
    else none

/-! ## City parameter estimator (src/utils/city_analyzer.py) -/

/-- The street-network characteristics CityAnalyzer accumulates before
deriving parameters: street density (m of street per square meter),
grid-ness, intersection complexity ratio, and the network bounding box. -/
structure Characteristics where
  street_density : ℚ
  is_grid : Bool
  intersection_complexity : ℚ
  bbox : Option (ℚ × ℚ × ℚ × ℚ)
deriving Repr, DecidableEq

/-- CityAnalyzer._calculate_optimal_parameters: start from the defaults,
pick the buffer distance from the density thresholds, the speed bounds
from grid-ness, the sinuosity bound from intersection complexity, and the
bounding box from the network bounds when available. -/
def calculateOptimalParameters (c : Characteristics) : CityParams :=
  let p0 := getDefaultParameters
  let p1 := { p0 with buffer_distance :=
    if 5/1000 < c.street_density then 3
    else if 2/1000 < c.street_density then 5
    else if 1/1000 < c.street_density then 8
    else 12 }
  let p2 :=
    if c.is_grid then { p1 with max_walking_speed := 7/2, min_walking_speed := 1/5 }
    else { p1 with max_walking_speed := 3, min_walking_speed := 1/10 }
  let p3 :=
    if 3/10 < c.intersection_complexity then { p2 with max_sinuosity := 5 }
    else { p2 with max_sinuosity := 7/2 }
  match c.bbox with
  | some bb => { p3 with bbox := some bb }
  | none => p3

/-- CityAnalyzer.analyze_city: the body runs the download-and-analyze
pipeline inside a try block; the pipeline either produces the network
characteristics or raises (modelled by Except). On success the optimal
parameters are returned; on any exception the fixed default parameter set
is returned — the function itself never raises (it is total here). -/
def analyze_city (pipeline : Except String Characteristics) : CityParams :=
  match pipeline with
  | .ok c => calculateOptimalParameters c
  | .error _ => getDefaultParameters

/-! ### Grid score (CityAnalyzer._analyze_urban_structure, lines 90 to 132) -/

/-- Orientation samples of a street network: for every geometry with at
least two coordinates, the bearing of every consecutive coordinate pair,
reduced modulo 180 degrees. The bearing computation itself
(degrees(arctan2(dy, dx)) mod 180) is transcendental and is abstracted as
a function from the two points to the reduced bearing. -/
def orientationsOf (bearing : (ℚ × ℚ) → (ℚ × ℚ) → ℚ)
    (net : List (List (ℚ × ℚ))) : List ℚ :=
  net.flatMap (fun coords =>
    if 2 ≤ coords.length then
      (coords.zip coords.tail).map (fun pq => bearing pq.1 pq.2)
    else [])

/-- Histogram bin of an orientation value under np.histogram with 18 bins
over the range 0 to 180: values outside the range fall in no bin; a value
inside lands in bin floor(v/10), except that the final bin is closed so
180 lands in bin 17. -/
def binIndex (v : ℚ) : Option (Fin 18) :=
  if 0 ≤ v ∧ v ≤ 180 then
    some ⟨min 17 (Int.toNat ⌊v / 10⌋), Nat.lt_succ_of_le (Nat.min_le_left 17 _)⟩
  else none

/-- Histogram count of one bin over an orientation list. -/
def hist (os : List ℚ) (i : Fin 18) : ℕ :=
  os.countP (fun v => decide (binIndex v = some i))

/-- The grid_indicators sum of _analyze_urban_structure: bins 0 and 17
(near 0 and 180 degrees), bins 4 and 5 (hist[4:6], near 45), bins 8 and 9
(hist[8:10], near 90), bins 13 and 14 (hist[13:15], near 135). -/
def gridIndicators (os : List ℚ) : ℕ :=
  (hist os 0 + hist os 17) + (hist os 4 + hist os 5) +
  (hist os 8 + hist os 9) + (hist os 13 + hist os 14)

/-- grid_score = sum(grid_indicators) / total_count if total_count > 0
else 0, where total_count is the number of orientation samples. -/
def gridScore (os : List ℚ) : ℚ :=
  if 0 < os.length then (gridIndicators os : ℚ) / (os.length : ℚ) else 0

/-- is_grid = grid_score > 0.4 (line 130). -/
def isGridScore (os : List ℚ) : Bool :=
  decide (2/5 < gridScore os)

/-- The set of histogram bins counted by grid_indicators: the two bins
adjacent to each anchor direction 0/180, 45, 90 and 135 degrees. -/
def anchorBins : List (Fin 18) := [0, 4, 5, 8, 9, 13, 14, 17]

/-- A sample counts toward the grid score iff its bin is an anchor bin. -/
def nearAnchor (v : ℚ) : Bool :=
  match binIndex v with
  | some i => decide (i ∈ anchorBins)
  | none => false

/-! ## Helper lemmas -/

/-- Filtering the index-selected walks by a per-walk predicate gives the
same list as filtering all walks, provided every walk satisfying the
predicate is among the candidates. -/
theorem filter_selectWalks (walks : List Walk) (cand : List ℕ) (p : Walk → Bool)
    (h : ∀ w ∈ walks, p w = true → w.gid ∈ cand) :
    (selectWalks walks cand).filter p = walks.filter p := by
  unfold selectWalks
  rw [List.filter_filter]
  refine List.filter_congr ?_
  intro w hw
  cases hp : p w with
  | false => simp [hp]
  | true => simp [hp, h w hw hp]

/-- Per-street processing is unchanged by restricting the walk list to a
sound candidate set. -/
theorem processStreet_select (inter : InterOracle) (b : ℚ) (walks : List Walk)
    (cand : List ℕ) (s : Street)
    (h : ∀ w ∈ walks, intersectsG inter b s w = true → w.gid ∈ cand) :
    processStreet inter b (selectWalks walks cand) s = processStreet inter b walks s := by
  unfold processStreet
  rw [filter_selectWalks walks cand _ h]

/-- With positive chunk size and enough fuel, the chunks flatten back to
the original list. -/
theorem chunksAux_flatten {α : Type} (n : ℕ) (hn : 0 < n) :
    ∀ (fuel : ℕ) (xs : List α), xs.length ≤ fuel → (chunksAux n fuel xs).flatten = xs := by
  intro fuel
  induction fuel with
  | zero =>
    intro xs h
    rw [Nat.le_zero, List.length_eq_zero] at h
    subst h
    rfl
  | succ fuel ih =>
    intro xs h
    cases xs with
    | nil => rfl
    | cons x l =>
      show ((x :: l).take n :: chunksAux n fuel ((x :: l).drop n)).flatten = x :: l
      rw [List.flatten_cons, ih ((x :: l).drop n) ?_, List.take_append_drop]
      rw [List.length_drop]
      simp only [List.length_cons] at h ⊢
      omega

/-- Chunking with positive size partitions the list. -/
theorem chunksOf_flatten {α : Type} (n : ℕ) (hn : 0 < n) (xs : List α) :
    (chunksOf n xs).flatten = xs :=
  chunksAux_flatten n hn xs.length xs le_rfl

/-- Core equivalence: under a sound spatial index and a positive batch
size, the batched matcher computes exactly the unbatched per-street
results, so batching is invisible in the output. -/
theorem matchStreetsBatched_eq (inter : InterOracle) (b : ℚ) (sidx : ℕ → List ℕ)
    (walks : List Walk) (streets : List Street) (bs : ℕ) (hbs : 0 < bs)
    (hsound : sidxSound inter b sidx walks streets) :
    matchStreetsBatched inter b sidx walks bs streets =
      matchStreets inter b walks streets := by
  unfold matchStreetsBatched matchStreets
  have hjoin : (chunksOf bs streets).flatten = streets := chunksOf_flatten bs hbs streets
  conv_rhs => rw [← hjoin]
  rw [List.filterMap_flatten, List.flatMap]
  refine congrArg List.flatten (List.map_congr_left ?_)
  intro batch hbatch
  have hsub : ∀ s ∈ batch, s ∈ streets := by
    intro s hs
    rw [← hjoin]
    exact List.mem_flatten_of_mem hbatch hs
  by_cases hc : (batch.flatMap (fun s => sidx s.gid)).isEmpty
  · rw [if_pos hc]
    rw [List.isEmpty_iff] at hc
    symm
    rw [List.filterMap_eq_nil_iff]
    intro s hs
    unfold processStreet
    rw [if_pos]
    rw [List.isEmpty_iff, List.filter_eq_nil_iff]
    intro w hw hint
    have hmem : w.gid ∈ batch.flatMap (fun s => sidx s.gid) :=
      List.mem_flatMap_of_mem hs (hsound s (hsub s hs) w hw hint)
    rw [hc] at hmem
    exact absurd hmem (List.not_mem_nil _)
  · rw [if_neg hc]
    refine List.filterMap_congr ?_
    intro s hs
    refine processStreet_select inter b walks _ s ?_
    intro w hw hint
    exact List.mem_flatMap_of_mem hs (hsound s (hsub s hs) w hw hint)

/-- Every record produced by the unbatched matcher satisfies the coverage
contract: the percentage formula, the covered flag, positivity, the 100
cap, and positive street length. -/
theorem mem_matchStreets_spec (inter : InterOracle) (b : ℚ) (walks : List Walk)
    (streets : List Street) (s : Street) (r : CoverageResult)
    (h : (s, r) ∈ matchStreets inter b walks streets) :
    r.coverage_percent = min 100 (coveredLength inter b walks s / s.length * 100) ∧
    r.covered = true ∧ 0 < r.coverage_percent ∧ r.coverage_percent ≤ 100 ∧
    0 < s.length := by
  unfold matchStreets at h
  rw [List.mem_filterMap] at h
  obtain ⟨a, _, hpa⟩ := h
  unfold processStreet streetRecord at hpa
  split at hpa
  · exact absurd hpa (by simp)
  · split at hpa
    · exact absurd hpa (by simp)
    · split at hpa
      · next hlen =>
          split at hpa
          · next hpos =>
              rw [Option.some.injEq, Prod.mk.injEq] at hpa
              obtain ⟨rfl, rfl⟩ := hpa
              refine ⟨?_, rfl, ?_, ?_, hlen⟩
              · rw [min_comm]
                rfl
              · exact lt_min hpos (by norm_num)
              · exact min_le_right _ _
          · exact absurd hpa (by simp)
      · exact absurd hpa (by simp)

/-- Per-sample split of the grid indicator sum: the eight anchor-bin
indicators of one sample add up to its nearAnchor indicator. -/
theorem nearAnchor_indicator (v : ℚ) :
    ((if binIndex v = some (0 : Fin 18) then 1 else 0) +
     (if binIndex v = some 17 then 1 else 0)) +
    ((if binIndex v = some 4 then 1 else 0) +
     (if binIndex v = some 5 then 1 else 0)) +
    ((if binIndex v = some 8 then 1 else 0) +
     (if binIndex v = some 9 then 1 else 0)) +
    ((if binIndex v = some 13 then 1 else 0) +
     (if binIndex v = some 14 then 1 else 0)) =
    (if nearAnchor v then 1 else 0 : ℕ) := by
  unfold nearAnchor
  cases h : binIndex v with
  | none => simp [h]
  | some i =>
    simp only [h, Option.some.injEq]
    fin_cases i <;> decide

/-- The grid indicator sum gains exactly the nearAnchor indicator of the
new head. -/
theorem gridIndicators_cons (v : ℚ) (os : List ℚ) :
    gridIndicators (v :: os) = gridIndicators os + (if nearAnchor v then 1 else 0) := by
  have hv := nearAnchor_indicator v
  unfold gridIndicators hist
  simp only [List.countP_cons, decide_eq_true_eq]
  simp only [decide_eq_true_eq] at hv
  omega

/-- The grid indicator sum counts exactly the samples whose bin lies in an
anchor window. -/
theorem gridIndicators_eq_countP (os : List ℚ) :
    gridIndicators os = os.countP nearAnchor := by
  induction os with
  | nil => rfl
  | cons v os ih => rw [gridIndicators_cons, ih, List.countP_cons]

/-- The grid score equals the fraction of samples in an anchor window
(with the empty-sample case handled by rational division by zero). -/
theorem gridScore_eq_countP (os : List ℚ) :
    gridScore os = (os.countP nearAnchor : ℚ) / (os.length : ℚ) := by
  unfold gridScore
  split
  · rw [gridIndicators_eq_countP]
  · next hlen =>
      have hnil : os = [] := by
        rw [← List.length_eq_zero]
        omega
      subst hnil
      simp

/-- Bounds on retained pieces: everything the piece filter keeps has
positive length and is at most 500 m. -/
theorem retainedPieces_bounds (ir : IntersectionResult) (x : ℚ)
    (hx : x ∈ retainedPieces ir) : 0 < x ∧ x ≤ 500 := by
  cases ir with
  | empty => exact absurd hx (List.not_mem_nil x)
  | single l =>
    simp only [retainedPieces] at hx
    split at hx
    · next hc => rw [List.mem_singleton] at hx; subst hx; exact hc
    · exact absurd hx (List.not_mem_nil x)
  | multi ls =>
    simp only [retainedPieces] at hx
    rw [List.mem_filter] at hx
    have hb := hx.2
    rw [Bool.and_eq_true, decide_eq_true_eq, decide_eq_true_eq] at hb
    exact hb

/-! ## Example fixtures -/

/-- Example intersection oracle: street geometry 0 meets buffered walk
geometry 0 in a single 20 m piece; nothing else intersects. -/
def exInter : InterOracle :=
  fun _ sg wg => if sg = 0 && wg = 0 then .single 20 else .empty

/-- Example walk: 100 m in 100 s (1 m/s), straight distance 10 m. -/
def exWalk : Walk := ⟨0, 100, 100, 10⟩

/-- Example street: geometry 0, 30 m long. -/
def exStreet : Street := ⟨0, 30⟩

/-- Second example street: geometry 1, 50 m long, meeting no walk. -/
def exStreet2 : Street := ⟨1, 50⟩

/-- Example spatial index: every bounds query returns walk id 0. -/
def exSidx : ℕ → List ℕ := fun _ => [0]

/-! ## Claims -/

/-- C2: in the coverage matcher, an individual intersection piece longer
than 500 m is discarded — a single piece of that length yields nothing, an
oversized piece in a multi-part intersection contributes nothing to the
sum and is absent from the retained list — and every piece summed into
covered_length has length in (0, 500]. -/
theorem piece_length_cap (l : ℚ) (ls : List ℚ) (h : 500 < l) :
    retainedPieces (.single l) = [] ∧
    (retainedPieces (.multi (l :: ls))).sum = (retainedPieces (.multi ls)).sum ∧
    l ∉ retainedPieces (.multi (l :: ls)) ∧
    (∀ (inter : InterOracle) (b : ℚ) (s : Street) (iw : List Walk) (x : ℚ),
      x ∈ coveredPieces inter b s iw → 0 < x ∧ x ≤ 500) := by
  have hp : (decide (0 < l) && decide (l ≤ 500)) = false := by
    rw [decide_eq_false (not_le.mpr h)]
    exact Bool.and_false _
  have hcons : retainedPieces (.multi (l :: ls)) = retainedPieces (.multi ls) := by
    simp only [retainedPieces]
    exact List.filter_cons_of_neg (by rw [hp]; exact Bool.false_ne_true)
  refine ⟨?_, by rw [hcons], ?_, ?_⟩
  · simp only [retainedPieces]
    rw [if_neg (fun hc => absurd hc.2 (not_le.mpr h))]
  · intro hmem
    rw [hcons] at hmem
    have := retainedPieces_bounds (.multi ls) l hmem
    exact absurd this.2 (not_le.mpr h)
  · intro inter b s iw x hx
    unfold coveredPieces at hx
    rw [List.mem_flatten] at hx
    obtain ⟨piece, hp2, hxp⟩ := hx
    rw [List.mem_map] at hp2
    obtain ⟨w, _, rfl⟩ := hp2
    exact retainedPieces_bounds _ x hxp

/-- C2 witness at a concrete oversized piece of 600 m next to a retained
piece of 100 m. -/
theorem piece_length_cap_witness :
    retainedPieces (.single 600) = [] ∧
    (retainedPieces (.multi [600, 100])).sum = (retainedPieces (.multi [100])).sum ∧
    (600 : ℚ) ∉ retainedPieces (.multi [600, 100]) ∧
    (0 < (20 : ℚ) ∧ (20 : ℚ) ≤ 500) := by
  obtain ⟨h1, h2, h3, h4⟩ := piece_length_cap 600 [100] (by norm_num)
  exact ⟨h1, h2, h3,
    h4 exInter 5 exStreet [exWalk] 20 (by decide)⟩

/-- C3: a track whose average speed exceeds max_walking_speed times 1.2
is always rejected, whatever its sinuosity or point density: by the
classifier of analyze_walks for any parameter set, and by
is_probable_transit of process_data.py (whose walking-speed bound is 7
km/h, so exceeding 1.2 times it certainly exceeds it). -/
theorem overspeed_always_rejected :
    (∀ (p : CityParams) (w : Walk),
      p.max_walking_speed * (12/10) < avgSpeed w → isValidWalk p w = false) ∧
    (∀ wd : WalkData, 7 * (12/10) < avgSpeedKmh wd → is_probable_transit wd = true) := by
  constructor
  · intro p w h
    have hd : decide (avgSpeed w ≤ p.max_walking_speed * (12/10)) = false :=
      decide_eq_false (not_le.mpr h)
    unfold isValidWalk
    rw [hd]
    simp
  · intro wd h
    have h7 : (7 : ℚ) < avgSpeedKmh wd := lt_trans (by norm_num) h
    have hd : decide ((7 : ℚ) < avgSpeedKmh wd) = true := decide_eq_true h7
    unfold is_probable_transit
    simp [hd]

/-- C3 witness: a 6000 m track covered in 600 s (10 m/s) is rejected by
the analyze_walks classifier under the new_york parameters, and a 6 km
track in 600 s (36 km/h) is flagged as transit. -/
theorem overspeed_always_rejected_witness :
    isValidWalk newYorkParams ⟨0, 6000, 600, 6000⟩ = false ∧
    is_probable_transit ⟨6, 600, 6, 10, 1⟩ = true :=
  ⟨overspeed_always_rejected.1 newYorkParams ⟨0, 6000, 600, 6000⟩
    (by norm_num [avgSpeed, newYorkParams]),
   overspeed_always_rejected.2 ⟨6, 600, 6, 10, 1⟩ (by norm_num [avgSpeedKmh])⟩

/-- C5: whenever the download-and-analyze pipeline of
CityAnalyzer.analyze_city fails, the returned parameters are exactly the
fixed default set (buffer 8, max speed 3.0, min speed 0.1, max sinuosity
4.0, max direct distance 15000, no bbox); analyze_city is a total
function of the pipeline outcome, so no exception propagates. -/
theorem estimator_failure_defaults (pipeline : Except String Characteristics)
    (e : String) (h : pipeline = .error e) :
    analyze_city pipeline =
      { buffer_distance := 8, max_walking_speed := 3, min_walking_speed := 1/10,
        max_sinuosity := 4, max_direct_distance := 15000, bbox := none } ∧
    analyze_city pipeline = getDefaultParameters := by
  subst h
  exact ⟨rfl, rfl⟩

/-- C5 witness at a concrete failed pipeline. -/
theorem estimator_failure_defaults_witness :
    analyze_city (.error "network unreachable") =
      { buffer_distance := 8, max_walking_speed := 3, min_walking_speed := 1/10,
        max_sinuosity := 4, max_direct_distance := 15000, bbox := none } ∧
    analyze_city (.error "network unreachable") = getDefaultParameters :=
  estimator_failure_defaults (.error "network unreachable") "network unreachable" rfl

/-- C9: analyze_walks looks up the hardcoded city new_york and so always
classifies and matches with the fixed legacy parameter set (buffer 5 m,
max speed 3.0 m/s, min speed 0.1 m/s), for every input — no caller-chosen
city or estimator-derived parameters enter the computation, since the
function takes no such argument; and its two-parameter signature does not
bind the three-argument calls made by process.py and
run_coverage_analysis.py. -/
theorem fixed_new_york_parameters :
    CITY_PARAMS.lookup analyzeWalksCity = some newYorkParams ∧
    newYorkParams.buffer_distance = 5 ∧
    newYorkParams.max_walking_speed = 3 ∧
    newYorkParams.min_walking_speed = 1/10 ∧
    (∀ (inter : InterOracle) (sidx : ℕ → List ℕ)
       (walks : List Walk) (streets : List Street),
      analyze_walks inter sidx walks streets =
        some (matchStreetsBatched inter newYorkParams.buffer_distance sidx
                (walks.filter (isValidWalk newYorkParams)) batchSize streets,
              walks.filter (isValidWalk newYorkParams))) ∧
    pythonCallBinds analyzeWalksParamCount analyzeWalksCallArgCount = false :=
  ⟨rfl, rfl, rfl, rfl, fun _ _ _ _ => rfl, rfl⟩

/-- C10: the analyze_walks classifier rejects any track whose average
speed is strictly below min_walking_speed, for every parameter set; in
particular a track with non-positive duration has average speed 0 and is
rejected under the parameters analyze_walks uses (min speed 0.1). -/
theorem below_min_speed_rejected :
    (∀ (p : CityParams) (w : Walk),
      avgSpeed w < p.min_walking_speed → isValidWalk p w = false) ∧
    (∀ w : Walk, w.duration ≤ 0 →
      avgSpeed w = 0 ∧ isValidWalk newYorkParams w = false) := by
  have main : ∀ (p : CityParams) (w : Walk),
      avgSpeed w < p.min_walking_speed → isValidWalk p w = false := by
    intro p w h
    have hd : decide (p.min_walking_speed ≤ avgSpeed w) = false :=
      decide_eq_false (not_le.mpr h)
    unfold isValidWalk
    rw [hd]
    simp
  refine ⟨main, fun w h => ?_⟩
  have h0 : avgSpeed w = 0 := by
    unfold avgSpeed
    rw [if_neg (not_lt.mpr h)]
  refine ⟨h0, main newYorkParams w ?_⟩
  rw [h0]
  norm_num [newYorkParams]

/-- C10 witness: a track of 100 m with duration 0 has average speed 0 and
is rejected. -/
theorem below_min_speed_rejected_witness :
    avgSpeed ⟨0, 100, 0, 10⟩ = 0 ∧ isValidWalk newYorkParams ⟨0, 100, 0, 10⟩ = false :=
  below_min_speed_rejected.2 ⟨0, 100, 0, 10⟩ (by decide)

/-- C1: every street record reported by analyze_walks (run under a sound
spatial index) satisfies the coverage contract: coverage_percent is
min(100, 100 × covered_length / segment_length) for the covered length of
the valid-walk set, covered is true, covered holds exactly when the
percentage is positive, the percentage lies in [0, 100], and the street
has positive length — so a zero-length segment contributes no coverage
record at all. -/
theorem analyze_walks_coverage_contract (inter : InterOracle) (sidx : ℕ → List ℕ)
    (walks : List Walk) (streets : List Street)
    (res : List (Street × CoverageResult)) (valid : List Walk)
    (hrun : analyze_walks inter sidx walks streets = some (res, valid))
    (hsound : sidxSound inter newYorkParams.buffer_distance sidx
      (walks.filter (isValidWalk newYorkParams)) streets)
    (s : Street) (r : CoverageResult) (hmem : (s, r) ∈ res) :
    r.coverage_percent = min 100
      (coveredLength inter newYorkParams.buffer_distance
        (walks.filter (isValidWalk newYorkParams)) s / s.length * 100) ∧
    r.covered = true ∧
    (r.covered = true ↔ 0 < r.coverage_percent) ∧
    0 ≤ r.coverage_percent ∧ r.coverage_percent ≤ 100 ∧
    0 < s.length := by
  have h0 : analyze_walks inter sidx walks streets =
      some (matchStreetsBatched inter newYorkParams.buffer_distance sidx
              (walks.filter (isValidWalk newYorkParams)) batchSize streets,
            walks.filter (isValidWalk newYorkParams)) := rfl
  rw [h0, Option.some.injEq, Prod.mk.injEq] at hrun
  obtain ⟨hres, _⟩ := hrun
  rw [← hres, matchStreetsBatched_eq _ _ _ _ _ _ (by norm_num [batchSize]) hsound]
    at hmem
  obtain ⟨h1, h2, h3, h4, h5⟩ := mem_matchStreets_spec _ _ _ _ _ _ hmem
  exact ⟨h1, h2, ⟨fun _ => h3, fun _ => h2⟩, le_of_lt h3, h4, h5⟩

/-- Evaluation of the example analyze_walks run used by the C1 witness:
one valid 1 m/s walk whose buffered corridor meets the one 30 m street in
a 20 m piece, reported with coverage 200/3 percent. -/
theorem exRunEval :
    analyze_walks exInter exSidx [exWalk] [exStreet] =
      some ([(exStreet, ⟨200/3, true⟩)], [exWalk]) := by
  have hfil : List.filter (isValidWalk newYorkParams) [exWalk] = [exWalk] := by
    norm_num [isValidWalk, newYorkParams, exWalk, avgSpeed, sinuosity, List.filter]
  have h0 : analyze_walks exInter exSidx [exWalk] [exStreet] =
      some (matchStreetsBatched exInter newYorkParams.buffer_distance exSidx
              (List.filter (isValidWalk newYorkParams) [exWalk]) batchSize [exStreet],
            List.filter (isValidWalk newYorkParams) [exWalk]) := rfl
  rw [h0, hfil]
  have hb : matchStreetsBatched exInter newYorkParams.buffer_distance exSidx [exWalk]
      batchSize [exStreet] =
      matchStreets exInter newYorkParams.buffer_distance [exWalk] [exStreet] := by
    refine matchStreetsBatched_eq _ _ _ _ _ _ (by norm_num [batchSize]) ?_
    intro s _ w hw _
    rw [List.mem_singleton] at hw
    subst hw
    exact List.mem_singleton.mpr rfl
  rw [hb]
  have hint : List.filter (intersectsG exInter newYorkParams.buffer_distance exStreet)
      [exWalk] = [exWalk] := by decide
  have hcp : coveredPieces exInter newYorkParams.buffer_distance exStreet [exWalk] =
      [20] := by decide
  have hps : processStreet exInter newYorkParams.buffer_distance [exWalk] exStreet =
      some (exStreet, ⟨200/3, true⟩) := by
    unfold processStreet streetRecord
    rw [hint, hcp]
    norm_num [exStreet, min_def]
  unfold matchStreets
  rw [List.filterMap_cons_some hps]
  rfl

/-- C1 witness: the coverage contract instantiated at the example run. -/
theorem analyze_walks_coverage_contract_witness :
    (⟨200/3, true⟩ : CoverageResult).coverage_percent = min 100
      (coveredLength exInter newYorkParams.buffer_distance
        (([exWalk]).filter (isValidWalk newYorkParams)) exStreet /
        exStreet.length * 100) ∧
    (⟨200/3, true⟩ : CoverageResult).covered = true ∧
    ((⟨200/3, true⟩ : CoverageResult).covered = true ↔
      0 < (⟨200/3, true⟩ : CoverageResult).coverage_percent) ∧
    0 ≤ (⟨200/3, true⟩ : CoverageResult).coverage_percent ∧
    (⟨200/3, true⟩ : CoverageResult).coverage_percent ≤ 100 ∧
    0 < exStreet.length := by
  refine analyze_walks_coverage_contract exInter exSidx [exWalk] [exStreet]
    [(exStreet, ⟨200/3, true⟩)] [exWalk] exRunEval ?_ exStreet ⟨200/3, true⟩
    (List.mem_singleton.mpr rfl)
  intro s _ w hw _
  have hw2 : w ∈ [exWalk] := List.mem_of_mem_filter hw
  rw [List.mem_singleton] at hw2
  subst hw2
  exact List.mem_singleton.mpr rfl

/-- C4 counterexample: analyze_walks on an empty walk set and the
non-empty street network [exStreet] returns an empty covered-street
collection — it does not return all street segments with covered = false;
the single input segment is absent from the output. -/
theorem empty_walk_set_counterexample :
    analyze_walks exInter (fun _ => ([] : List ℕ)) [] [exStreet] = some ([], []) ∧
    (1 : ℕ) ≤ [exStreet].length := by decide

/-- The batched matcher run with no walks yields no covered streets. -/
theorem matchStreetsBatched_nil_walks (inter : InterOracle) (b : ℚ)
    (sidx : ℕ → List ℕ) (bs : ℕ) (streets : List Street) :
    matchStreetsBatched inter b sidx [] bs streets = [] := by
  unfold matchStreetsBatched
  rw [List.flatMap_eq_nil_iff]
  intro batch _
  split
  · rfl
  · rw [List.filterMap_eq_nil_iff]
    intro s _
    rfl

/-- C4 amended: analyze_walks with an empty walk set returns normally (no
exception: the function is total and produces a value) with an empty
covered-street collection and an empty valid-walk collection, for every
street network — rather than returning every segment marked
covered = false. -/
theorem empty_walk_set_result (inter : InterOracle) (sidx : ℕ → List ℕ)
    (streets : List Street) :
    analyze_walks inter sidx [] streets = some ([], []) := by
  have h0 : analyze_walks inter sidx [] streets =
      some (matchStreetsBatched inter newYorkParams.buffer_distance sidx
              (List.filter (isValidWalk newYorkParams) []) batchSize streets,
            List.filter (isValidWalk newYorkParams) []) := rfl
  rw [h0]
  rw [show List.filter (isValidWalk newYorkParams) [] = [] from rfl]
  rw [matchStreetsBatched_nil_walks]

/-- C6: the coverage matcher is a pure function of the walk set, street
set and buffer distance — in this embedding it is literally a function of
those inputs, so two runs on identical inputs give identical output — and
the batch size does not influence the result: under a sound spatial
index, any two positive batch sizes produce the same output, equal to the
unbatched per-street computation. -/
theorem batch_size_independent (inter : InterOracle) (b : ℚ) (sidx : ℕ → List ℕ)
    (walks : List Walk) (streets : List Street) (bs1 bs2 : ℕ)
    (h1 : 0 < bs1) (h2 : 0 < bs2)
    (hsound : sidxSound inter b sidx walks streets) :
    matchStreetsBatched inter b sidx walks bs1 streets =
      matchStreetsBatched inter b sidx walks bs2 streets ∧
    matchStreetsBatched inter b sidx walks bs1 streets =
      matchStreets inter b walks streets := by
  have e1 := matchStreetsBatched_eq inter b sidx walks streets bs1 h1 hsound
  have e2 := matchStreetsBatched_eq inter b sidx walks streets bs2 h2 hsound
  exact ⟨e1.trans e2.symm, e1⟩

/-- C6 witness: batch sizes 1 and 2 agree with the unbatched matcher on a
two-street network. -/
theorem batch_size_independent_witness :
    matchStreetsBatched exInter 5 exSidx [exWalk] 1 [exStreet, exStreet2] =
      matchStreetsBatched exInter 5 exSidx [exWalk] 2 [exStreet, exStreet2] ∧
    matchStreetsBatched exInter 5 exSidx [exWalk] 1 [exStreet, exStreet2] =
      matchStreets exInter 5 [exWalk] [exStreet, exStreet2] :=
  batch_size_independent exInter 5 exSidx [exWalk] [exStreet, exStreet2] 1 2
    (by decide) (by decide) (by decide)

/-- C7: the grid score of a street network is the fraction of consecutive
coordinate-pair bearing samples (taken modulo 180 degrees and binned into
18 buckets of 10 degrees over [0, 180)) that fall in the two-bucket
windows around the anchor directions 0/180, 45, 90 and 135 degrees; and
the city is classified as grid exactly when this score exceeds 0.4. -/
theorem grid_score_spec (bearing : (ℚ × ℚ) → (ℚ × ℚ) → ℚ)
    (net : List (List (ℚ × ℚ))) :
    gridScore (orientationsOf bearing net) =
      ((orientationsOf bearing net).countP nearAnchor : ℚ) /
      ((orientationsOf bearing net).length : ℚ) ∧
    (isGridScore (orientationsOf bearing net) = true ↔
      2/5 < gridScore (orientationsOf bearing net)) := by
  refine ⟨gridScore_eq_countP _, ?_⟩
  unfold isGridScore
  exact decide_eq_true_iff

/-- C8: a track file with fewer than 2 valid track points parses to no
Track value at all, and every Track produced by the parser has at least 2
points in its polyline. -/
theorem parse_two_point_invariant (f : TCXFile) :
    ((validTrackpoints f.trackpoints).length < 2 → parse_tcx_file f = none) ∧
    (∀ t : Track, parse_tcx_file f = some t → 2 ≤ t.coords.length) := by
  obtain ⟨act, tps⟩ := f
  cases act with
  | none =>
    constructor
    · intro _
      rfl
    · intro t ht
      exact absurd ht (by simp [parse_tcx_file])
  | some sport =>
    by_cases hs : sport = some "Walking"
    · subst hs
      cases hv : validTrackpoints tps with
      | nil =>
        constructor
        · intro _
          simp [parse_tcx_file, hv]
        · intro t ht
          simp [parse_tcx_file, hv] at ht
      | cons p rest =>
        cases rest with
        | nil =>
          constructor
          · intro _
            simp [parse_tcx_file, hv]
          · intro t ht
            simp [parse_tcx_file, hv] at ht
        | cons q rest2 =>
          constructor
          · intro hlt
            exact absurd hlt (by simp only [List.length_cons]; omega)
          · intro t ht
            simp only [parse_tcx_file, hv, ite_true, if_pos rfl,
              Option.some.injEq] at ht
            subst ht
            simp
    · constructor
      · intro _
        simp [parse_tcx_file, hs]
      · intro t ht
        simp [parse_tcx_file, hs] at ht

/-- C8 witness: a Walking file with a single valid track point (its
second point lacks a timestamp) parses to none. -/
theorem parse_two_point_invariant_witness :
    (validTrackpoints [⟨some 1, some (some 40, some (-74))⟩,
      ⟨none, some (some 41, some (-75))⟩]).length < 2 ∧
    parse_tcx_file ⟨some (some "Walking"),
      [⟨some 1, some (some 40, some (-74))⟩,
       ⟨none, some (some 41, some (-75))⟩]⟩ = none :=
  ⟨by decide,
   (parse_two_point_invariant ⟨some (some "Walking"),
      [⟨some 1, some (some 40, some (-74))⟩,
       ⟨none, some (some 41, some (-75))⟩]⟩).1 (by decide)⟩

end StreetCoverage
